import Mathlib

set_option maxRecDepth 100000

/-!
Verification of the random-walk puzzle-generation engine of the chess_walk
repository: the weighted move sampler (src/walker.py, choose_weighted_move),
the divergence analyzer (src/divergence.py, find_divergence and its helpers)
and the random-walk orchestrator (src/walker.py, generate_and_save_positions).

Modelling conventions:
- pandas DataFrames of move statistics are lists of rows;
- the external statistical routines (scipy chi2_contingency and statsmodels
  proportions_ztest) are modelled as oracle function parameters: the code under
  verification only consumes the p-values they return;
- the float power f ** (1 / temperature) used for weight scaling is likewise an
  oracle parameter (a function of the frequency, for the fixed temperature);
- the Lichess API client (src/api.py, get_move_stats) is an external
  collaborator and is modelled as an oracle returning (moves, total), where the
  moves component is an Option to distinguish a missing sample (Python None)
  from a present list, matching the Python falsiness test used by the code;
- the chess library (board.push_uci / board.fen) is an oracle from a FEN and a
  uci move to the successor FEN;
- Python numbers are rationals; game totals are naturals.
The constants MIN_WIN_RATE_DELTA, TEMPERATURE and STARTING_FEN are imported by
the code from parameters.py but are not defined in the copy of parameters.py in
the repository; they are passed as parameters of the embedding.
-/

/-- One element of the raw move list handed to the analyzer and sampler:
the dict with keys uci, games_total, win_rate, draw_rate, loss_rate, freq. -/
structure MoveStat where
  uci : String
  games_total : ℕ
  win_rate : ℚ
  draw_rate : ℚ
  loss_rate : ℚ
  freq : ℚ
deriving DecidableEq

/-- One row of the DataFrame built by build_move_df: columns Move, Games,
White %, Draw %, Black %, Freq. -/
structure MoveRow where
  move : String
  games : ℚ
  white : ℚ
  draw : ℚ
  black : ℚ
  freq : ℚ
deriving DecidableEq

instance : Inhabited MoveRow := ⟨⟨"", 0, 0, 0, 0, 0⟩⟩

/-- divergence.build_move_df: converts raw move data into DataFrame rows,
multiplying the win, draw and loss rates by 100. -/
def build_move_df (moves : List MoveStat) : List MoveRow :=
  moves.map fun m =>
    { move := m.uci, games := (m.games_total : ℚ), white := m.win_rate * 100,
      draw := m.draw_rate * 100, black := m.loss_rate * 100, freq := m.freq }

/-- Python falsiness of the moves component returned by get_move_stats:
None and the empty list are both falsy. -/
def noMoves : Option (List MoveStat) → Bool
  | none => true
  | some l => l.isEmpty

/-- Order-preserving deduplication, first occurrence kept, with the list of
already seen elements as accumulator. -/
def dedupFirstAux (seen : List String) : List String → List String
  | [] => []
  | x :: xs =>
    if seen.contains x then dedupFirstAux seen xs
    else x :: dedupFirstAux (x :: seen) xs

/-- Order-preserving deduplication, first occurrence kept; stands in for the
union of the two Move columns used to index the contingency table. -/
def dedupFirst (l : List String) : List String := dedupFirstAux [] l

/-- The union of the moves of the two DataFrames (rows of the contingency
table built by check_frequency_divergence). -/
def union_moves (b t : List MoveRow) : List String :=
  dedupFirst ((b.map MoveRow.move) ++ (t.map MoveRow.move))

/-- df[df[Move] == move][Games].sum() with 0 for a missing move. -/
def games_sum (df : List MoveRow) (m : String) : ℚ :=
  ((df.filter fun r => r.move == m).map MoveRow.games).sum

/-- The contingency table of check_frequency_divergence: one (base games,
target games) pair per move in the union. -/
def contingency (b t : List MoveRow) : List (ℚ × ℚ) :=
  (union_moves b t).map fun m => (games_sum b m, games_sum t m)

/-- divergence.check_frequency_divergence: builds the contingency table, asks
the chi-square oracle chi2p for the p-value and compares it with the
threshold.  Returns (significant?, p-value). -/
def check_frequency_divergence (chi2p : List (ℚ × ℚ) → ℚ)
    (base_df target_df : List MoveRow) (p_threshold : ℚ) : Bool × ℚ :=
  let p := chi2p (contingency base_df target_df)
  (decide (p < p_threshold), p)

/-- divergence.check_win_rate_difference: two-proportion z-test (oracle zt,
taking the two win counts and the two game counts) for one move across the two
cohorts.  Returns (target better?, p-value), with (false, none) when either
row is missing or below min_games. -/
def check_win_rate_difference (zt : ℚ → ℚ → ℚ → ℚ → ℚ)
    (base_df target_df : List MoveRow) (move : String)
    (p_threshold min_games : ℚ) : Bool × Option ℚ :=
  match base_df.find? (fun r => r.move == move),
        target_df.find? (fun r => r.move == move) with
  | some br, some tr =>
    if br.games < min_games ∨ tr.games < min_games then (false, none)
    else
      let base_wins := br.white * br.games / 100
      let target_wins := tr.white * tr.games / 100
      let p := zt base_wins target_wins br.games tr.games
      (decide (p < p_threshold) && decide (br.white < tr.white), some p)
  | _, _ => (false, none)

/-- Stable insertion of a row into a list sorted by descending Freq. -/
def insert_row (x : MoveRow) : List MoveRow → List MoveRow
  | [] => [x]
  | y :: ys => if y.freq < x.freq then x :: y :: ys else y :: insert_row x ys

/-- df.sort_values(by Freq, descending).  The source uses the pandas default
sort; no claim depends on the order of rows with equal Freq, so a stable
insertion sort is used here. -/
def sort_by_freq_desc : List MoveRow → List MoveRow
  | [] => []
  | x :: xs => insert_row x (sort_by_freq_desc xs)

/-- The sorted DataFrame obtained from a raw move list, as computed inside
find_divergence before the top moves are read off. -/
def sorted_df (l : List MoveStat) : List MoveRow :=
  sort_by_freq_desc (build_move_df l)

/-- The top move of a cohort: the Move of the first row of the sorted
DataFrame (df.iloc[0][Move] after sort_values). -/
def top_move (l : List MoveStat) : String := ((sorted_df l).headD default).move

/-- The White % of the first row of the sorted DataFrame. -/
def top_white (l : List MoveStat) : ℚ := ((sorted_df l).headD default).white

/-- df[df[Move] == m][White %].iloc[0] with 0 for a missing move. -/
def lookup_white (df : List MoveRow) (m : String) : ℚ :=
  match df.find? (fun r => r.move == m) with
  | some r => r.white
  | none => 0

/-- df[df[Move] == m][Games].iloc[0] with 0 for a missing move. -/
def lookup_games (df : List MoveRow) (m : String) : ℚ :=
  match df.find? (fun r => r.move == m) with
  | some r => r.games
  | none => 0

/-- The dict returned by find_divergence on the Divergent path.  Its fields
are exactly the keys of that dict; there is no z-test p-value field because
the source stores none. -/
structure DivergenceResult where
  fen : String
  base_rating : String
  target_rating : String
  base_df : List MoveRow
  target_df : List MoveRow
  top_base_move : String
  top_target_move : String
  p_freq : ℚ
  base_win_for_target_move : ℚ
  base_win_for_top_move : ℚ
deriving DecidableEq

/-- The terminal classification of one analyzer run.  The source function
returns None on the first three and the result dict on the fourth; the
distinction between the three None-producing branches exists only in the log
messages emitted on each branch. -/
inductive DivClass where
  | dataUnavailable
  | insufficientGames
  | notDivergent
  | divergent (r : DivergenceResult)
deriving DecidableEq

/-- Collapse of a classification to the value the caller of find_divergence
actually receives. -/
def DivClass.toOption : DivClass → Option DivergenceResult
  | .divergent r => some r
  | _ => none

/-- divergence.find_divergence, instrumented: returns the branch
classification together with the log messages the branch emits.  The inputs
baseStats and targetStats are the two get_move_stats results for the position;
chi2p is the chi-square oracle; min_delta is the imported MIN_WIN_RATE_DELTA
and min_games the imported MIN_GAMES.  Log text is reproduced only as far as
the control flow of the walker reads it: string-valued interpolations are kept
verbatim, numeric interpolations and the float format specifiers are dropped,
which cannot affect the only inspection ever performed on the log (a search
for the fixed substring Missing move data, which contains no digits). -/
def find_divergence_run (chi2p : List (ℚ × ℚ) → ℚ)
    (fen base_rating target_rating : String)
    (baseStats targetStats : Option (List MoveStat) × ℕ)
    (p_threshold min_delta : ℚ) (min_games : ℕ) : DivClass × List String :=
  let logs0 := ["Analyzing position for divergence between ratings "
                  ++ base_rating ++ " and " ++ target_rating,
                "Position: " ++ fen]
  if noMoves baseStats.1 || noMoves targetStats.1 then
    (.dataUnavailable,
     logs0 ++ ["No moves data for " ++ fen ++ " at rating "
                ++ (if noMoves baseStats.1 then base_rating else target_rating)])
  else if baseStats.2 < min_games ∨ targetStats.2 < min_games then
    (.insufficientGames, logs0 ++ ["Insufficient games: min required"])
  else
    let base_df := build_move_df (baseStats.1.getD [])
    let target_df := build_move_df (targetStats.1.getD [])
    let fd := check_frequency_divergence chi2p base_df target_df p_threshold
    let logs1 := logs0 ++ ["Base DataFrame", "Target DataFrame",
                           "Chi-square p-value for frequency"]
    if fd.1 then
      let base_s := sort_by_freq_desc base_df
      let target_s := sort_by_freq_desc target_df
      let top_base := (base_s.headD default).move
      let top_target := (target_s.headD default).move
      if top_base = top_target then
        (.notDivergent,
         logs1 ++ ["No divergence - same top move in both rating bands"])
      else
        let base_top_win := (base_s.headD default).white
        let base_win := lookup_white base_s top_target
        let base_games := lookup_games base_s top_target
        if min_delta ≤ base_win - base_top_win ∧ (5 : ℚ) ≤ base_games then
          (.divergent
            { fen := fen, base_rating := base_rating,
              target_rating := target_rating, base_df := base_s,
              target_df := target_s, top_base_move := top_base,
              top_target_move := top_target, p_freq := fd.2,
              base_win_for_target_move := base_win,
              base_win_for_top_move := base_top_win },
           logs1 ++ ["Base cohort win rate for top move " ++ top_base,
                     "Divergence detected! Target prefers " ++ top_target
                       ++ ", outperforms base top move"])
        else
          (.notDivergent,
           logs1 ++ ["Target move " ++ top_target
                       ++ " not better than base top move " ++ top_base])
    else
      (.notDivergent, logs1 ++ ["No significant frequency divergence"])

/-- The classification of one analyzer run (first component of the
instrumented run). -/
def find_divergence_class (chi2p : List (ℚ × ℚ) → ℚ)
    (fen base_rating target_rating : String)
    (baseStats targetStats : Option (List MoveStat) × ℕ)
    (p_threshold min_delta : ℚ) (min_games : ℕ) : DivClass :=
  (find_divergence_run chi2p fen base_rating target_rating baseStats
    targetStats p_threshold min_delta min_games).1

/-- divergence.find_divergence as its caller sees it: the returned value is
the result dict on the Divergent branch and None on every other branch.  This
definition mirrors the source return statements directly. -/
def find_divergence (chi2p : List (ℚ × ℚ) → ℚ)
    (fen base_rating target_rating : String)
    (baseStats targetStats : Option (List MoveStat) × ℕ)
    (p_threshold min_delta : ℚ) (min_games : ℕ) : Option DivergenceResult :=
  if noMoves baseStats.1 || noMoves targetStats.1 then none
  else if baseStats.2 < min_games ∨ targetStats.2 < min_games then none
  else
    let base_df := build_move_df (baseStats.1.getD [])
    let target_df := build_move_df (targetStats.1.getD [])
    let fd := check_frequency_divergence chi2p base_df target_df p_threshold
    if fd.1 then
      let base_s := sort_by_freq_desc base_df
      let target_s := sort_by_freq_desc target_df
      let top_base := (base_s.headD default).move
      let top_target := (target_s.headD default).move
      if top_base = top_target then none
      else
        let base_top_win := (base_s.headD default).white
        let base_win := lookup_white base_s top_target
        let base_games := lookup_games base_s top_target
        if min_delta ≤ base_win - base_top_win ∧ (5 : ℚ) ≤ base_games then
          some { fen := fen, base_rating := base_rating,
                 target_rating := target_rating, base_df := base_s,
                 target_df := target_s, top_base_move := top_base,
                 top_target_move := top_target, p_freq := fd.2,
                 base_win_for_target_move := base_win,
                 base_win_for_top_move := base_top_win }
        else none
    else none

/-- Modelled from the spec: the two-proportion z-test gate of section 4.2 step
6, which is described by the spec but absent from find_divergence in the
source.  Within the base sample, the win counts (win-rate times games over
100) of the two top moves are handed to the z-test oracle zt together with
the game counts, and the gate holds when the returned p-value is below the
threshold. -/
def spec_ztest_significant (zt : ℚ → ℚ → ℚ → ℚ → ℚ) (base_df : List MoveRow)
    (top_base top_target : String) (p_threshold : ℚ) : Bool :=
  let br := (base_df.find? (fun r => r.move == top_base)).getD default
  let tr := (base_df.find? (fun r => r.move == top_target)).getD default
  decide (zt (br.white * br.games / 100) (tr.white * tr.games / 100)
            br.games tr.games < p_threshold)

/-- Outcome of walker.choose_weighted_move: no move for lack of data (the
Python function returns None), a ZeroDivisionError raised while normalizing
weights whose total is zero, or a chosen uci move. -/
inductive SamplerOutcome where
  | noData
  | crash
  | picked (uci : String)
deriving DecidableEq

/-- True exactly on the picked outcome. -/
def isPicked : SamplerOutcome → Bool
  | .picked _ => true
  | _ => false

/-- Cumulative sums (itertools.accumulate) starting from acc. -/
def cumsum (acc : ℚ) : List ℚ → List ℚ
  | [] => []
  | x :: xs => (acc + x) :: cumsum (acc + x) xs

/-- bisect.bisect(cum, x, 0, hi) on a nondecreasing list: the number of
entries among the first hi that are at most x. -/
def bisect_idx (cum : List ℚ) (x : ℚ) (hi : ℕ) : ℕ :=
  ((cum.take hi).filter fun c => decide (c ≤ x)).length

/-- random.choices(population, weights, k=1)[0]: the element at the bisection
index of the cumulative weights at r * total, where r is the uniform draw in
[0, 1) supplied by the pseudo-random number generator. -/
def random_choices1 (population : List String) (weights : List ℚ) (r : ℚ) :
    String :=
  let cum := cumsum 0 weights
  let total := cum.getLastD 0
  population.getD (bisect_idx cum (r * total) (population.length - 1)) ""

/-- walker.choose_weighted_move.  pw is the oracle for the float power
f ** (1 / temperature) at the configured temperature; r the uniform draw;
stats the get_move_stats result; min_games the imported MIN_GAMES.  The
normalization w / total_weight raises ZeroDivisionError in the source when the
scaled weights sum to zero, embedded as the crash outcome. -/
def choose_weighted_move (pw : ℚ → ℚ) (r : ℚ)
    (stats : Option (List MoveStat) × ℕ) (min_games : ℕ) : SamplerOutcome :=
  match stats.1 with
  | none => .noData
  | some moves =>
    if moves.isEmpty || decide (stats.2 < min_games) then .noData
    else
      let scaled_weights := moves.map fun m => pw m.freq
      let total_weight := scaled_weights.sum
      if total_weight = 0 then .crash
      else
        let normalized_weights := scaled_weights.map fun w => w / total_weight
        .picked (random_choices1 (moves.map MoveStat.uci) normalized_weights r)

/-- The dict built by walker.create_position_data from a divergence result. -/
structure PositionData where
  fen : String
  base_rating : String
  target_rating : String
  cohortPair : String
  ply : ℕ
  base_top_moves : List String
  base_freqs : List ℚ
  base_wdls : List (ℚ × ℚ × ℚ)
  target_top_moves : List String
  target_freqs : List ℚ
  target_wdls : List (ℚ × ℚ × ℚ)
deriving DecidableEq

/-- walker.create_position_data. -/
def create_position_data (d : DivergenceResult)
    (base_rating target_rating : String) (ply : ℕ) : PositionData :=
  { fen := d.fen, base_rating := base_rating, target_rating := target_rating,
    cohortPair := base_rating ++ "-" ++ target_rating, ply := ply,
    base_top_moves := d.base_df.map MoveRow.move,
    base_freqs := d.base_df.map MoveRow.freq,
    base_wdls := d.base_df.map fun r => (r.white / 100, r.draw / 100, r.black / 100),
    target_top_moves := d.target_df.map MoveRow.move,
    target_freqs := d.target_df.map MoveRow.freq,
    target_wdls := d.target_df.map fun r => (r.white / 100, r.draw / 100, r.black / 100) }

/-- How one orchestrator run ended: still walking (or completed normally),
stopped before the first ply for lack of root data, broke out of the loop
because move selection returned no move, aborted through the
missing-move-data log check, or died on a propagated exception from the
sampler. -/
inductive WalkStatus where
  | running
  | rootInvalid
  | abortedNoMove
  | abortedMissingData
  | crashed
deriving DecidableEq

/-- The mutable state of one orchestrator run: the current FEN, the message
buffer of the process-wide logger (the memory handler; its capacity of 100 is
not modelled, no run considered here produces enough messages to flush it),
the added_positions accumulator, the 1-based ply labels at which
evaluate_divergence was invoked (instrumentation: these are the plies the
source logs as Evaluating divergence at ply), and the status. -/
structure WalkState where
  fen : String
  logs : List String
  positions : List PositionData
  checked : List ℕ
  status : WalkStatus
deriving DecidableEq

/-- The collaborators and configuration of one orchestrator run: the
get_move_stats oracle (FEN and rating band to sample), the chess-library
oracle for board.push_uci composed with board.fen, the power oracle of the
sampler, the stream of uniform draws consumed by random.choices (one per
ply), the chi-square oracle, and the configured constants. -/
structure WalkCfg where
  stats : String → String → Option (List MoveStat) × ℕ
  pushFen : String → String → String
  pw : ℚ → ℚ
  rand : ℕ → ℚ
  chi2p : List (ℚ × ℚ) → ℚ
  starting_fen : String
  base_rating : String
  target_rating : String
  min_games : ℕ
  min_delta : ℚ

/-- The last n entries of the logger buffer (buffer[-5:] is lastN 5). -/
def lastN (n : ℕ) (l : List String) : List String := l.drop (l.length - n)

/-- Prefix test on character lists. -/
def prefixOfCL : List Char → List Char → Bool
  | [], _ => true
  | _ :: _, [] => false
  | c :: cs, d :: ds => c == d && prefixOfCL cs ds

/-- Substring test on character lists: the needle is a prefix of some suffix
of the hay. -/
def containsSubCL (needle : List Char) : List Char → Bool
  | [] => prefixOfCL needle []
  | d :: ds => prefixOfCL needle (d :: ds) || containsSubCL needle ds

/-- Case-sensitive substring test, the Python operator in on strings. -/
def containsSub (needle hay : String) : Bool :=
  containsSubCL needle.toList hay.toList

/-- walker.validate_initial_position: both cohorts must have moves and at
least MIN_GAMES total games at the starting position. -/
def validate_initial_position (cfg : WalkCfg) : Bool :=
  let bs := cfg.stats cfg.starting_fen cfg.base_rating
  let ts := cfg.stats cfg.starting_fen cfg.target_rating
  !(noMoves bs.1 || noMoves ts.1 || decide (bs.2 < cfg.min_games)
      || decide (ts.2 < cfg.min_games))

/-- One iteration of the ply loop of walker.generate_and_save_positions, for
loop counter ply (0-based; the source logs and tags positions with ply + 1),
assuming the walk is still running: choose a weighted move (break on None),
push it, skip the divergence check when ply < min_ply, otherwise evaluate
divergence with the default p_threshold of 0.10; on a divergence append the
position data, otherwise search the last five logger-buffer messages for the
substring Missing move data and abort the walk on a hit.  Persistence
(save_position_to_csv) writes to disk and is outside the model. -/
def stepRun (cfg : WalkCfg) (min_ply : ℕ) (st : WalkState) (ply : ℕ) :
    WalkState :=
  let logs := st.logs ++ ["Processing ply"]
  match choose_weighted_move cfg.pw (cfg.rand ply)
          (cfg.stats st.fen cfg.base_rating) cfg.min_games with
  | .noData =>
    { st with logs := logs ++ ["Insufficient data",
                "Aborting walk due to insufficient data."],
              status := .abortedNoMove }
  | .crash => { st with logs := logs, status := .crashed }
  | .picked mv =>
    let fen2 := cfg.pushFen st.fen mv
    let logs := logs ++ ["New position at ply"]
    if ply < min_ply then
      { st with fen := fen2, logs := logs ++ ["Skipping divergence check"] }
    else
      let logs := logs ++ ["Evaluating divergence at ply"]
      let res := find_divergence_run cfg.chi2p fen2 cfg.base_rating
                   cfg.target_rating (cfg.stats fen2 cfg.base_rating)
                   (cfg.stats fen2 cfg.target_rating) (1 / 10) cfg.min_delta
                   cfg.min_games
      let checked := st.checked ++ [ply + 1]
      match res.1 with
      | .divergent d =>
        { st with fen := fen2,
                  logs := logs ++ res.2
                    ++ ["Snapshot: divergence found",
                        "Significant divergence found", "Saved position"],
                  positions := st.positions
                    ++ [create_position_data d cfg.base_rating
                          cfg.target_rating (ply + 1)],
                  checked := checked }
      | _ =>
        let logs := logs ++ res.2 ++ ["Snapshot at ply: no divergence found"]
        let recent := lastN 5 logs
        if recent.any (fun m => containsSub "Missing move data" m) then
          { st with fen := fen2,
                    logs := logs
                      ++ ["Aborting walk due to missing move data for target rating "
                            ++ cfg.target_rating],
                    checked := checked, status := .abortedMissingData }
        else
          { st with fen := fen2,
                    logs := logs ++ ["Recent logs",
                      "Snapshot at ply: no divergence found"],
                    checked := checked }

/-- One iteration of the ply loop: a run that has already stopped is left
unchanged (the source has exited the loop by then). -/
def stepWalk (cfg : WalkCfg) (min_ply : ℕ) (st : WalkState) (ply : ℕ) :
    WalkState :=
  match st.status with
  | .running => stepRun cfg min_ply st ply
  | _ => st

/-- The state before the ply loop starts. -/
def initState (cfg : WalkCfg) : WalkState :=
  { fen := cfg.starting_fen,
    logs := ["Starting random walk with divergence", "Initial position"],
    positions := [], checked := [], status := .running }

/-- walker.generate_and_save_positions run for the first n iterations of the
ply loop (for ply in range(max_ply) with max_ply replaced by n): validate the
initial position, then fold the loop body over ply = 0 .. n - 1. -/
def runUpTo (cfg : WalkCfg) (min_ply n : ℕ) : WalkState :=
  if validate_initial_position cfg then
    (List.range n).foldl (stepWalk cfg min_ply) (initState cfg)
  else
    { initState cfg with status := .rootInvalid }

/-- walker.generate_and_save_positions: the full walk over
ply in range(max_ply); the list of added positions is the positions field of
the final state. -/
def runWalk (cfg : WalkCfg) (min_ply max_ply : ℕ) : WalkState :=
  runUpTo cfg min_ply max_ply

/-- parameters.MIN_PLY. -/
def MIN_PLY : ℕ := 10

/-- parameters.MAX_PLY. -/
def MAX_PLY : ℕ := 20

/-- parameters.MIN_GAMES. -/
def MIN_GAMES : ℕ := 0

/-- Base cohort sample for the C1 counterexample: top move e2e4 (94 games,
White 40 percent), second move d2d4 only 6 games but White 60 percent.  At
these counts the actual two-proportion z-test of the spec is far from
significant (p is about 0.34), while the win-rate delta is 20 points. -/
def bmC1 : List MoveStat :=
  [⟨"e2e4", 94, 2/5, 3/10, 3/10, 47/50⟩, ⟨"d2d4", 6, 3/5, 1/5, 1/5, 3/50⟩]

/-- Target cohort sample for the C1 counterexample: top move d2d4. -/
def tmC1 : List MoveStat :=
  [⟨"d2d4", 70, 1/2, 1/4, 1/4, 7/10⟩, ⟨"e2e4", 30, 2/5, 3/10, 3/10, 3/10⟩]

/-- Base cohort sample for the C4 counterexample: the base top move e2e4 has
only 3 games in the base sample, below the minimum of 5, while d2d4 (the
target top move) has 50 games and a win rate 15 points higher. -/
def bmC4 : List MoveStat :=
  [⟨"e2e4", 3, 2/5, 3/10, 3/10, 3/5⟩, ⟨"d2d4", 50, 11/20, 1/4, 1/5, 2/5⟩]

/-- Target cohort sample for the C4 counterexample: top move d2d4. -/
def tmC4 : List MoveStat :=
  [⟨"d2d4", 60, 1/2, 1/4, 1/4, 3/5⟩, ⟨"e2e4", 40, 2/5, 3/10, 3/10, 2/5⟩]

/-- Target cohort sample for the C4 witness: its top move g1f3 does not
appear in the base sample at all. -/
def tmC4w : List MoveStat := [⟨"g1f3", 60, 1/2, 1/4, 1/4, 3/5⟩]

/-- Base cohort sample for the C9 witness. -/
def bmC9 : List MoveStat :=
  [⟨"e2e4", 70, 2/5, 3/10, 3/10, 7/10⟩, ⟨"d2d4", 30, 3/5, 1/5, 1/5, 3/10⟩]

/-- Target cohort sample for the C9 witness. -/
def tmC9 : List MoveStat :=
  [⟨"d2d4", 70, 1/2, 1/4, 1/4, 7/10⟩, ⟨"e2e4", 30, 2/5, 3/10, 3/10, 3/10⟩]

/-- The divergence result produced on the C9 witness inputs. -/
def rC9 : DivergenceResult :=
  { fen := "F", base_rating := "1400", target_rating := "1800",
    base_df := [⟨"e2e4", 70, 40, 30, 30, 7/10⟩, ⟨"d2d4", 30, 60, 20, 20, 3/10⟩],
    target_df := [⟨"d2d4", 70, 50, 25, 25, 7/10⟩, ⟨"e2e4", 30, 40, 30, 30, 3/10⟩],
    top_base_move := "e2e4", top_target_move := "d2d4", p_freq := 1/1000,
    base_win_for_target_move := 60, base_win_for_top_move := 40 }

/-- A single-move sample whose frequency is zero: the scaled weights of the
sampler sum to zero on it. -/
def msC5 : List MoveStat := [⟨"e2e4", 10, 1/2, 3/10, 1/5, 0⟩]

/-- A two-move cohort sample used as provider data in the concrete walks. -/
def msW : List MoveStat :=
  [⟨"e2e4", 70, 2/5, 3/10, 3/10, 7/10⟩, ⟨"d2d4", 30, 3/5, 1/5, 1/5, 3/10⟩]

/-- Walk configuration for C2: both rating bands have data at the starting
position S, but away from the root only the base band 1400 has data; the
target band 1800 returns no sample, so every divergence check is
DataUnavailable because the target sample is missing. -/
def cfgC2 : WalkCfg :=
  { stats := fun fen band =>
      if fen == "S" then (some msW, 100)
      else if band == "1400" then (some msW, 100)
      else (none, 0),
    pushFen := fun f u => f ++ u, pw := fun q => q, rand := fun _ => 0,
    chi2p := fun _ => 1, starting_fen := "S",
    base_rating := "1400", target_rating := "1800",
    min_games := 0, min_delta := 10 }

/-- Walk configuration for C3: both bands always return the same sample and
the chi-square oracle returns 1, so every divergence check runs and reports
NotDivergent and the walk is never aborted. -/
def cfgC3 : WalkCfg :=
  { stats := fun _ _ => (some msW, 100),
    pushFen := fun f u => f ++ u, pw := fun q => q, rand := fun _ => 0,
    chi2p := fun _ => 1, starting_fen := "S",
    base_rating := "1400", target_rating := "1800",
    min_games := 0, min_delta := 10 }

/-- Walk configuration for C8: data is available until the position reached
after two moves (FEN Se2e4e2e4), where the provider has no sample, so move
selection fails at the third loop iteration. -/
def cfgC8 : WalkCfg :=
  { stats := fun fen _ =>
      if fen == "Se2e4e2e4" then ((none : Option (List MoveStat)), 0)
      else (some msW, 100),
    pushFen := fun f u => f ++ u, pw := fun q => q, rand := fun _ => 0,
    chi2p := fun _ => 1, starting_fen := "S",
    base_rating := "1400", target_rating := "1800",
    min_games := 0, min_delta := 10 }

/-- C6: For every cohort sample s (present or missing, with any total),
running the divergence analyzer with base sample = s and target sample = s
yields no DivergenceResult: every branch of find_divergence returns None on
identical inputs, because either a gate fails or the two top moves coincide. -/
theorem find_divergence_reflexive (chi2p : List (ℚ × ℚ) → ℚ)
    (fen b t : String) (s : Option (List MoveStat) × ℕ) (θ δ : ℚ) (mg : ℕ) :
    find_divergence chi2p fen b t s s θ δ mg = none := by
  unfold find_divergence
  split
  · rfl
  · split
    · rfl
    · dsimp only
      split
      · split
        · rfl
        · next h => exact absurd rfl h
      · rfl

/-- C10: the analyzer collapses all three non-divergent classifications into
the single value None: the value find_divergence returns is exactly the
collapse (toOption) of the branch classification, and the three non-divergent
classifications have the same collapse, so they are indistinguishable to the
caller from the returned value alone; the distinction lives only in the log
messages carried by find_divergence_run. -/
theorem find_divergence_collapse (chi2p : List (ℚ × ℚ) → ℚ)
    (fen b t : String) (bs ts : Option (List MoveStat) × ℕ) (θ δ : ℚ) (mg : ℕ) :
    find_divergence chi2p fen b t bs ts θ δ mg =
      (find_divergence_class chi2p fen b t bs ts θ δ mg).toOption ∧
    DivClass.toOption .dataUnavailable = DivClass.toOption .insufficientGames ∧
    DivClass.toOption .insufficientGames = DivClass.toOption .notDivergent := by
  refine ⟨?_, rfl, rfl⟩
  unfold find_divergence find_divergence_class find_divergence_run
  split
  · rfl
  · split
    · rfl
    · dsimp only
      split
      · split
        · rfl
        · split
          · rfl
          · rfl
      · rfl

/-- C7: whenever either cohorts sample is empty or absent, the analyzer
classifies the position as DataUnavailable (and returns None), regardless of
the other sample and of the totals: the presence check is the first branch of
find_divergence, so it fires before the total-games floor and an empty sample
is never classified as InsufficientGames. -/
theorem find_divergence_empty_data_unavailable (chi2p : List (ℚ × ℚ) → ℚ)
    (fen b t : String) (bs ts : Option (List MoveStat) × ℕ) (θ δ : ℚ) (mg : ℕ)
    (h : (noMoves bs.1 || noMoves ts.1) = true) :
    find_divergence_class chi2p fen b t bs ts θ δ mg = .dataUnavailable ∧
    find_divergence chi2p fen b t bs ts θ δ mg = none := by
  constructor
  · unfold find_divergence_class find_divergence_run
    simp [h]
  · unfold find_divergence
    simp [h]

/-- C7 witness: a missing base sample together with a present target sample,
with both totals (0) strictly below the floor (5), is still classified
DataUnavailable, not InsufficientGames. -/
theorem find_divergence_empty_data_unavailable_witness :
    (noMoves (none : Option (List MoveStat)) || noMoves (some msW)) = true ∧
    find_divergence_class (fun _ => 1) "F" "1400" "1800"
      ((none : Option (List MoveStat)), 0) (some msW, 0) (1/10) 10 5 =
      .dataUnavailable :=
  ⟨by with_unfolding_all decide,
   (find_divergence_empty_data_unavailable (fun _ => 1) "F" "1400" "1800"
      ((none : Option (List MoveStat)), 0) (some msW, 0) (1/10) 10 5
      (by with_unfolding_all decide)).1⟩

/-- C9: whenever the analyzer returns a result, that result has distinct top
moves, carries a chi-square p-value below the threshold, has a base-cohort
win-rate advantage of the target top move over the base top move of at least
the configured delta, and the target top move has at least 5 games within the
base cohorts sample (the base_df carried by the result). -/
theorem find_divergence_some_invariant (chi2p : List (ℚ × ℚ) → ℚ)
    (fen b t : String) (bs ts : Option (List MoveStat) × ℕ) (θ δ : ℚ) (mg : ℕ)
    (r : DivergenceResult)
    (h : find_divergence chi2p fen b t bs ts θ δ mg = some r) :
    r.top_base_move ≠ r.top_target_move ∧ r.p_freq < θ ∧
    δ ≤ r.base_win_for_target_move - r.base_win_for_top_move ∧
    (5 : ℚ) ≤ lookup_games r.base_df r.top_target_move := by
  unfold find_divergence at h
  split at h
  · exact absurd h (by simp)
  · split at h
    · exact absurd h (by simp)
    · dsimp only at h
      split at h
      · split at h
        · exact absurd h (by simp)
        · next hne =>
          split at h
          · next hguard =>
            rw [Option.some.injEq] at h
            subst h
            refine ⟨by simpa using hne, ?_, by simpa using hguard.1,
              by simpa using hguard.2⟩
            next hfd =>
            simp only [check_frequency_divergence, decide_eq_true_eq] at hfd
            simpa [check_frequency_divergence] using hfd
          · exact absurd h (by simp)
      · exact absurd h (by simp)

/-- C9 witness: the analyzer applied to the concrete C9 samples returns the
result rC9, and the invariant holds of it. -/
theorem find_divergence_some_invariant_witness :
    find_divergence (fun _ => 1/1000) "F" "1400" "1800"
      (some bmC9, 100) (some tmC9, 100) (1/10) 10 0 = some rC9 ∧
    (rC9.top_base_move ≠ rC9.top_target_move ∧ rC9.p_freq < 1/10 ∧
     (10 : ℚ) ≤ rC9.base_win_for_target_move - rC9.base_win_for_top_move ∧
     (5 : ℚ) ≤ lookup_games rC9.base_df rC9.top_target_move) :=
  ⟨by with_unfolding_all decide,
   find_divergence_some_invariant (fun _ => 1/1000) "F" "1400" "1800"
     (some bmC9, 100) (some tmC9, 100) (1/10) 10 0 rC9 (by with_unfolding_all decide)⟩

/-- C4 counterexample: on these samples the base cohorts own top move e2e4
has only 3 games in the base sample, below the minimum of 5, yet the analyzer
still reports a divergence; the claim that either top move below the minimum
forces NotDivergent is therefore false: only the target top move is checked. -/
theorem find_divergence_base_top_games_cex :
    (find_divergence (fun _ => 1/1000) "F" "1400" "1800"
      (some bmC4, 100) (some tmC4, 100) (1/10) 10 0).isSome = true ∧
    lookup_games (sorted_df bmC4) (top_move bmC4) < 5 := by
  with_unfolding_all decide

/-- C4 amended: the analyzer requires only the target cohorts top move to
have at least 5 games (a hardcoded constant) within the base cohorts sample;
whenever that count is below 5 the classification is not Divergent (None is
returned).  The base top moves count is never checked. -/
theorem find_divergence_target_games_gate (chi2p : List (ℚ × ℚ) → ℚ)
    (fen b t : String) (bs ts : Option (List MoveStat) × ℕ) (θ δ : ℚ) (mg : ℕ)
    (h : lookup_games (sorted_df (bs.1.getD [])) (top_move (ts.1.getD [])) < 5) :
    find_divergence chi2p fen b t bs ts θ δ mg = none := by
  unfold find_divergence
  split
  · rfl
  · split
    · rfl
    · dsimp only
      split
      · split
        · rfl
        · split
          · next hguard =>
            exact absurd hguard.2 (not_le.mpr (by simpa [sorted_df, top_move] using h))
          · rfl
      · rfl

/-- C4 witness: the target top move g1f3 is absent from the base sample
(lookup yields 0 games, below 5), so the analyzer returns None. -/
theorem find_divergence_target_games_gate_witness :
    lookup_games (sorted_df bmC9) (top_move tmC4w) < 5 ∧
    find_divergence (fun _ => 1/1000) "F" "1400" "1800"
      (some bmC9, 100) (some tmC4w, 100) (1/10) 10 0 = none :=
  ⟨by with_unfolding_all decide,
   find_divergence_target_games_gate (fun _ => 1/1000) "F" "1400" "1800"
     (some bmC9, 100) (some tmC4w, 100) (1/10) 10 0 (by with_unfolding_all decide)⟩

/-- C1 counterexample: on these samples every gate of the claim holds (both
samples present, totals at the floor, chi-square gate passed, distinct top
moves), the two-proportion z-test on the win counts of the two top moves
within the base sample is NOT significant at the 0.10 threshold (the oracle
returns 1/3, approximating the actual p-value of about 0.34 for 37.6 wins in
94 games against 3.6 wins in 6 games), and yet the analyzer classifies the
position as Divergent: find_divergence never runs a z-test. -/
theorem find_divergence_ztest_free_cex :
    (find_divergence (fun _ => 1/100000000) "F" "1400" "1800"
      (some bmC1, 100) (some tmC1, 100) (1/10) 10 0).isSome = true ∧
    spec_ztest_significant (fun _ _ _ _ => 1/3) (sorted_df bmC1)
      (top_move bmC1) (top_move tmC1) (1/10) = false := by
  with_unfolding_all decide

/-- C1 amended: for every pair of cohort samples that passes the presence
check, the games floor and the chi-square significance gate and has distinct
top moves, the analyzer classifies the position as Divergent if and only if
the target top moves win rate within the base sample exceeds the base top
moves win rate by at least the configured delta AND the target top move has
at least 5 games (hardcoded) in the base sample.  No z-test is involved and
the produced result carries the chi-square p-value, not a z-test p-value. -/
theorem find_divergence_divergent_iff (chi2p : List (ℚ × ℚ) → ℚ)
    (fen b t : String) (bl tl : List MoveStat) (bt tt : ℕ) (θ δ : ℚ) (mg : ℕ)
    (hb : bl ≠ []) (ht : tl ≠ [])
    (hgb : ¬ bt < mg) (hgt : ¬ tt < mg)
    (hchi : chi2p (contingency (build_move_df bl) (build_move_df tl)) < θ)
    (htop : top_move bl ≠ top_move tl) :
    (find_divergence chi2p fen b t (some bl, bt) (some tl, tt) θ δ mg).isSome
        = true ↔
      (δ ≤ lookup_white (sorted_df bl) (top_move tl) - top_white bl ∧
       (5 : ℚ) ≤ lookup_games (sorted_df bl) (top_move tl)) := by
  have hnb : noMoves (some bl) = false := by
    cases bl with
    | nil => exact absurd rfl hb
    | cons a l => rfl
  have hnt : noMoves (some tl) = false := by
    cases tl with
    | nil => exact absurd rfl ht
    | cons a l => rfl
  unfold find_divergence
  dsimp only
  rw [hnb, hnt]
  rw [if_neg (by simp)]
  rw [if_neg (not_or.mpr ⟨hgb, hgt⟩)]
  dsimp only [Option.getD]
  rw [if_pos (by simp [check_frequency_divergence, hchi])]
  split
  · next heq => exact absurd heq htop
  · split
    · next h => exact iff_of_true rfl h
    · next h => exact iff_of_false (by simp) h

/-- C1 witness: the amended theorem applied to the C1 samples; both sides of
the equivalence hold there. -/
theorem find_divergence_divergent_iff_witness :
    bmC1 ≠ [] ∧ tmC1 ≠ [] ∧ ¬ (100 : ℕ) < 0 ∧
    ((1 : ℚ)/100000000 < 1/10) ∧ top_move bmC1 ≠ top_move tmC1 ∧
    ((find_divergence (fun _ => 1/100000000) "F" "1400" "1800"
        (some bmC1, 100) (some tmC1, 100) (1/10) 10 0).isSome = true ↔
      ((10 : ℚ) ≤ lookup_white (sorted_df bmC1) (top_move tmC1) - top_white bmC1 ∧
       (5 : ℚ) ≤ lookup_games (sorted_df bmC1) (top_move tmC1))) :=
  ⟨by with_unfolding_all decide, by with_unfolding_all decide,
   by with_unfolding_all decide, by with_unfolding_all decide,
   by with_unfolding_all decide,
   find_divergence_divergent_iff (fun _ => 1/100000000) "F" "1400" "1800"
     bmC1 tmC1 100 100 (1/10) 10 0
     (by with_unfolding_all decide) (by with_unfolding_all decide)
     (by with_unfolding_all decide) (by with_unfolding_all decide)
     (by with_unfolding_all decide) (by with_unfolding_all decide)⟩

/-- random.choices over a nonempty population always returns an element of
the population: the bisection index is clamped to the last position. -/
theorem random_choices1_mem (pop : List String) (ws : List ℚ) (r : ℚ)
    (h : pop ≠ []) : random_choices1 pop ws r ∈ pop := by
  unfold random_choices1
  have hpos : 0 < pop.length := List.length_pos.mpr h
  have hle : bisect_idx (cumsum 0 ws)
      (r * (cumsum 0 ws).getLastD 0) (pop.length - 1) ≤ pop.length - 1 := by
    unfold bisect_idx
    exact le_trans (List.length_filter_le _ _) (by simp [List.length_take])
  have hlt : bisect_idx (cumsum 0 ws)
      (r * (cumsum 0 ws).getLastD 0) (pop.length - 1) < pop.length :=
    lt_of_le_of_lt hle (Nat.sub_lt hpos Nat.one_pos)
  rw [List.getD_eq_getElem?_getD, List.getElem?_eq_getElem hlt]
  exact List.getElem_mem hlt

/-- C5 counterexample: a sample with one listed move of frequency zero and 10
total games (at or above any floor of 0) makes the scaled weights sum to
zero, so the source raises ZeroDivisionError while normalizing instead of
returning a move: the sampler does not always return a move for a nonempty
sample above the games floor. -/
theorem choose_weighted_move_zero_weight_cex :
    choose_weighted_move (fun q => q) 0
      ((some msC5 : Option (List MoveStat)), 10) 0 = .crash ∧
    isPicked (choose_weighted_move (fun q => q) 0
      ((some msC5 : Option (List MoveStat)), 10) 0) = false := by
  with_unfolding_all decide

/-- C5 amended: for every present, nonempty sample whose total games reach
the configured minimum AND whose scaled weights do not sum to zero, the
sampler returns a move, and the returned uci move is listed in the sample. -/
theorem choose_weighted_move_mem (pw : ℚ → ℚ) (r : ℚ) (ms : List MoveStat)
    (total mg : ℕ) (hne : ms ≠ []) (hmg : ¬ total < mg)
    (hw : (ms.map fun m => pw m.freq).sum ≠ 0) :
    ∃ u, choose_weighted_move pw r (some ms, total) mg = .picked u ∧
      u ∈ ms.map MoveStat.uci := by
  unfold choose_weighted_move
  dsimp only
  have hemp : ms.isEmpty = false := by
    cases ms with
    | nil => exact absurd rfl hne
    | cons a l => rfl
  rw [hemp, decide_eq_false hmg]
  simp only [Bool.or_self, Bool.false_or, if_false]
  rw [if_neg hw]
  refine ⟨_, rfl, random_choices1_mem _ _ _ ?_⟩
  simpa using hne

/-- C5 witness: on the two-move sample msW with positive frequencies the
sampler picks a move of the sample. -/
theorem choose_weighted_move_mem_witness :
    msW ≠ [] ∧ ¬ (100 : ℕ) < 0 ∧
    (msW.map fun m => (fun q : ℚ => q) m.freq).sum ≠ 0 ∧
    ∃ u, choose_weighted_move (fun q : ℚ => q) 0 (some msW, 100) 0 =
        .picked u ∧ u ∈ msW.map MoveStat.uci :=
  ⟨by with_unfolding_all decide, by with_unfolding_all decide,
   by with_unfolding_all decide,
   choose_weighted_move_mem (fun q : ℚ => q) 0 msW 100 0
     (by with_unfolding_all decide) (by with_unfolding_all decide)
     (by with_unfolding_all decide)⟩

/-- A run that has already stopped is a fixed point of the loop body. -/
theorem stepWalk_not_running (cfg : WalkCfg) (mp : ℕ) (st : WalkState)
    (ply : ℕ) (h : st.status ≠ .running) : stepWalk cfg mp st ply = st := by
  unfold stepWalk
  cases hs : st.status
  case running => exact absurd hs h
  all_goals rfl

/-- If the state after one loop iteration is still running then so was the
state before it. -/
theorem stepWalk_running_of (cfg : WalkCfg) (mp : ℕ) (st : WalkState)
    (ply : ℕ) (h : (stepWalk cfg mp st ply).status = .running) :
    st.status = .running := by
  by_cases hs : st.status = .running
  · exact hs
  · rw [stepWalk_not_running cfg mp st ply hs] at h
    exact absurd h hs

/-- Unrolling one iteration of the walk. -/
theorem runUpTo_succ (cfg : WalkCfg) (mp n : ℕ) :
    runUpTo cfg mp (n + 1) = stepWalk cfg mp (runUpTo cfg mp n) n := by
  unfold runUpTo
  by_cases hv : validate_initial_position cfg = true
  · simp [hv, List.range_succ]
  · simp only [hv, if_false, Bool.false_eq_true]
    exact (stepWalk_not_running _ _ _ _ (by simp)).symm

/-- Once a run has stopped, running further iterations changes nothing. -/
theorem runUpTo_stable (cfg : WalkCfg) (mp n : ℕ)
    (h : (runUpTo cfg mp n).status ≠ .running) :
    ∀ j, runUpTo cfg mp (n + j) = runUpTo cfg mp n := by
  intro j
  induction j with
  | zero => rfl
  | succ j ih =>
    show runUpTo cfg mp ((n + j) + 1) = runUpTo cfg mp n
    rw [runUpTo_succ, ih, stepWalk_not_running _ _ _ _ h]

/-- One loop iteration either leaves the accumulated positions unchanged or
appends one position tagged with the 1-based label of the current ply. -/
theorem stepWalk_positions (cfg : WalkCfg) (mp : ℕ) (st : WalkState)
    (ply : ℕ) :
    (stepWalk cfg mp st ply).positions = st.positions ∨
    ∃ d, (stepWalk cfg mp st ply).positions =
      st.positions ++ [create_position_data d cfg.base_rating
        cfg.target_rating (ply + 1)] := by
  unfold stepWalk stepRun
  dsimp only
  repeat' split
  all_goals first
    | (left; rfl)
    | (right; exact ⟨_, rfl⟩)

/-- Every accumulated position of a finished prefix of the walk is tagged
with a ply label at most the number of iterations run. -/
theorem runUpTo_positions_ply_le (cfg : WalkCfg) (mp : ℕ) :
    ∀ n, ∀ p ∈ (runUpTo cfg mp n).positions, p.ply ≤ n := by
  intro n
  induction n with
  | zero =>
    intro p hp
    unfold runUpTo at hp
    by_cases hv : validate_initial_position cfg = true <;>
      simp [hv, initState] at hp
  | succ n ih =>
    intro p hp
    rw [runUpTo_succ] at hp
    rcases stepWalk_positions cfg mp (runUpTo cfg mp n) n with h | ⟨d, h⟩
    · rw [h] at hp
      exact le_trans (ih p hp) (Nat.le_succ n)
    · rw [h, List.mem_append] at hp
      rcases hp with hp | hp
      · exact le_trans (ih p hp) (Nat.le_succ n)
      · simp only [List.mem_singleton] at hp
        subst hp
        simp [create_position_data]

/-- When move selection returns no move, the loop iteration aborts the walk,
leaving positions and checked plies untouched. -/
theorem stepRun_noData (cfg : WalkCfg) (mp : ℕ) (st : WalkState) (ply : ℕ)
    (hfail : choose_weighted_move cfg.pw (cfg.rand ply)
      (cfg.stats st.fen cfg.base_rating) cfg.min_games = .noData) :
    (stepRun cfg mp st ply).positions = st.positions ∧
    (stepRun cfg mp st ply).checked = st.checked ∧
    (stepRun cfg mp st ply).status = .abortedNoMove := by
  unfold stepRun
  rw [hfail]
  exact ⟨rfl, rfl, rfl⟩

/-- A loop iteration that leaves the walk running records the divergence
check of this ply exactly when the 0-based loop counter has reached min_ply:
the checked list gains the 1-based label ply + 1 iff min_ply ≤ ply. -/
theorem stepRun_running_checked (cfg : WalkCfg) (mp : ℕ) (st : WalkState)
    (ply : ℕ) :
    (stepRun cfg mp st ply).status = .running →
    (stepRun cfg mp st ply).checked =
      (if ply < mp then st.checked else st.checked ++ [ply + 1]) := by
  unfold stepRun
  dsimp only
  repeat' split
  all_goals intro h
  all_goals simp_all

/-- C8: if move selection fails (returns no move) at loop iteration k of a
walk that was still running, the orchestrator ends the walk there with status
abortedNoMove and returns exactly the positions accumulated during the
iterations before k; every returned position is tagged with a 1-based ply
label at most k, i.e. strictly before the aborted ply k + 1, and nothing from
the aborted ply or later is included. -/
theorem walk_abort_preserves_collected (cfg : WalkCfg) (mp k maxp : ℕ)
    (hk : k < maxp)
    (hrun : (runUpTo cfg mp k).status = .running)
    (hfail : choose_weighted_move cfg.pw (cfg.rand k)
      (cfg.stats (runUpTo cfg mp k).fen cfg.base_rating) cfg.min_games
      = .noData) :
    (runWalk cfg mp maxp).positions = (runUpTo cfg mp k).positions ∧
    (runWalk cfg mp maxp).status = .abortedNoMove ∧
    (runWalk cfg mp maxp).checked = (runUpTo cfg mp k).checked ∧
    ∀ p ∈ (runWalk cfg mp maxp).positions, p.ply ≤ k := by
  have hstep : runUpTo cfg mp (k + 1) = stepRun cfg mp (runUpTo cfg mp k) k := by
    rw [runUpTo_succ]
    unfold stepWalk
    rw [hrun]
  obtain ⟨hp, hc, hs⟩ := stepRun_noData cfg mp (runUpTo cfg mp k) k hfail
  have hfix : runWalk cfg mp maxp = runUpTo cfg mp (k + 1) := by
    unfold runWalk
    obtain ⟨j, rfl⟩ : ∃ j, maxp = (k + 1) + j :=
      ⟨maxp - (k + 1), (Nat.add_sub_cancel' (Nat.succ_le_of_lt hk)).symm⟩
    exact runUpTo_stable cfg mp (k + 1) (by rw [hstep, hs]; simp) j
  refine ⟨?_, ?_, ?_, ?_⟩
  · rw [hfix, hstep, hp]
  · rw [hfix, hstep, hs]
  · rw [hfix, hstep, hc]
  · intro p hp2
    rw [hfix, hstep, hp] at hp2
    exact runUpTo_positions_ply_le cfg mp k p hp2

/-- C8 witness: in the concrete configuration cfgC8 the walk is still running
after two iterations, move selection fails at iteration 2, and the full walk
over four iterations returns exactly the positions and checked plies of the
two-iteration prefix, with the aborted status. -/
theorem walk_abort_preserves_collected_witness :
    (2 : ℕ) < 4 ∧ (runUpTo cfgC8 1 2).status = .running ∧
    choose_weighted_move cfgC8.pw (cfgC8.rand 2)
      (cfgC8.stats (runUpTo cfgC8 1 2).fen cfgC8.base_rating) cfgC8.min_games
      = .noData ∧
    (runWalk cfgC8 1 4).positions = (runUpTo cfgC8 1 2).positions ∧
    (runWalk cfgC8 1 4).status = .abortedNoMove :=
  ⟨by with_unfolding_all decide, by with_unfolding_all decide,
   by with_unfolding_all decide,
   (walk_abort_preserves_collected cfgC8 1 2 4 (by with_unfolding_all decide)
     (by with_unfolding_all decide) (by with_unfolding_all decide)).1,
   (walk_abort_preserves_collected cfgC8 1 2 4 (by with_unfolding_all decide)
     (by with_unfolding_all decide) (by with_unfolding_all decide)).2.1⟩

/-- C3 amended: for every walk that completes without being aborted (final
status still running), the divergence check is invoked exactly at the loop
counters ply with min_ply ≤ ply < max_ply, i.e. at the 1-based ply labels
min_ply + 1 .. max_ply used by the logs and the saved positions: the first
checked 1-based ply is min_ply + 1, not min_ply, and the plies 1 .. min_ply
are skipped. -/
theorem walk_checked_plies (cfg : WalkCfg) (mp maxp : ℕ)
    (h : (runWalk cfg mp maxp).status = .running) :
    (runWalk cfg mp maxp).checked =
      ((List.range maxp).filter (fun i => decide (mp ≤ i))).map
        (fun i => i + 1) := by
  unfold runWalk at h ⊢
  induction maxp with
  | zero =>
    unfold runUpTo at h ⊢
    by_cases hv : validate_initial_position cfg = true
    · simp [hv, initState]
    · simp [hv, initState] at h
  | succ n ih =>
    rw [runUpTo_succ] at h ⊢
    have hprev : (runUpTo cfg mp n).status = .running :=
      stepWalk_running_of _ _ _ _ h
    have hck := ih hprev
    unfold stepWalk at h ⊢
    rw [hprev] at h ⊢
    have hsc := stepRun_running_checked cfg mp (runUpTo cfg mp n) n h
    rw [hsc, hck, List.range_succ, List.filter_append, List.map_append]
    by_cases hmp : n < mp
    · simp [hmp, Nat.not_le.mpr hmp]
    · simp [hmp, Nat.not_lt.mp hmp]

/-- C3 counterexample: a never-aborted walk with min_ply = 2 and max_ply = 3
invokes the divergence check only at the 1-based ply 3: ply 2 ( = MIN_PLY) is
skipped, contradicting the claim that the check is invoked at every ply p
with MIN_PLY ≤ p ≤ MAX_PLY and that the first checked ply is MIN_PLY itself
(under the 0-based loop counter reading the claim fails at the other end:
counter 3 = MAX_PLY is never reached). -/
theorem walk_first_checked_ply_cex :
    (runWalk cfgC3 2 3).status = .running ∧
    (runWalk cfgC3 2 3).checked = [3] := by
  with_unfolding_all decide

/-- C3 witness: the amended theorem applied to the concrete configuration
cfgC3 with min_ply = 1, max_ply = 2: the walk completes running and the
checked 1-based plies are exactly [2]. -/
theorem walk_checked_plies_witness :
    (runWalk cfgC3 1 2).status = .running ∧
    (runWalk cfgC3 1 2).checked =
      ((List.range 2).filter (fun i => decide (1 ≤ i))).map (fun i => i + 1) :=
  ⟨by with_unfolding_all decide,
   walk_checked_plies cfgC3 1 2 (by with_unfolding_all decide)⟩

/-- C2 (code defect, evaluated at the failing input): in cfgC2 the target
rating bands sample is missing at every position after the root, so the
divergence check at the first checked ply (1-based ply 2) is DataUnavailable
because the target sample is missing; the claim says the walk must abort
there, but the source searches the logger buffer for the substring Missing
move data while find_divergence logs No moves data for ..., a string that
never matches, so the walk continues: it checks ply 3 as well and finishes
with status running instead of aborting after ply 2. -/
theorem walk_missing_target_continues :
    (find_divergence_class cfgC2.chi2p "Se2e4e2e4" "1400" "1800"
      (cfgC2.stats "Se2e4e2e4" "1400") (cfgC2.stats "Se2e4e2e4" "1800")
      (1/10) cfgC2.min_delta cfgC2.min_games = .dataUnavailable) ∧
    noMoves (cfgC2.stats "Se2e4e2e4" "1800").1 = true ∧
    noMoves (cfgC2.stats "Se2e4e2e4" "1400").1 = false ∧
    (runWalk cfgC2 1 3).checked = [2, 3] ∧
    (runWalk cfgC2 1 3).status = .running := by
  with_unfolding_all decide
